import Mathlib

/-!
Verification of the vortex-simulation repository's kinematic integrator,
geometry solver and trail-continuity engine (src/main.ts, final variant),
and of the point-vortex velocity field (src/simulation/Vortex.ts with
constants from src/simulation/constants.ts).

Real-number quantities of the program are modelled over the reals; a separate
exact model of ECMAScript number semantics (with NaN and the infinities,
finite values carried as rationals) is used where the behaviour of
Math.min / Math.max on non-finite inputs is the point at issue.
-/

namespace Rotor

/-- 2D vector in viewport pixel space (type Vec2 in the source). -/
structure Vec2 where
  x : ℝ
  y : ℝ

/-- Componentwise vector addition (function add in the source). -/
def add (a b : Vec2) : Vec2 := ⟨a.x + b.x, a.y + b.y⟩

/-- Counter-clockwise rotation of a vector by an angle in radians
(function rotate in the source). -/
noncomputable def rotate (v : Vec2) (angleRad : ℝ) : Vec2 :=
  ⟨v.x * Real.cos angleRad - v.y * Real.sin angleRad,
   v.x * Real.sin angleRad + v.y * Real.cos angleRad⟩

/-- clamp(v, min, max) = Math.min(Math.max(v, min), max), over the reals. -/
def clamp (v mi ma : ℝ) : ℝ := min (max v mi) ma

/-- Euclidean distance, Math.hypot(dx, dy) = sqrt(dx^2 + dy^2)
(function dist in the source). -/
noncomputable def dist (a b : Vec2) : ℝ :=
  Real.sqrt ((a.x - b.x) ^ 2 + (a.y - b.y) ^ 2)

/-- Identity of a traced point (the PointId union type of the source). -/
inductive PointId where
  | topL
  | topR
  | botL
  | botR
  deriving DecidableEq

/-- A traced point: optional previous and current positions
(fields prev and now of type TracedPoint; absent is modelled as none). -/
structure TracedPoint where
  id : PointId
  prev : Option Vec2
  now : Option Vec2

/-- params.motion of the source. -/
structure Motion where
  timeScale : ℝ
  omegaGlobal : ℝ
  omegaTop : ℝ
  omegaBottom : ℝ
  dtClampMax : ℝ

/-- params.geometry of the source (phase offsets in degrees). -/
structure GeometryCfg where
  axisOffsetRatio : ℝ
  armLenRatio : ℝ
  topPhaseOffset : ℝ
  bottomPhaseOffset : ℝ

/-- params.trails of the source; only maxSegmentRatio affects the
continuity decision, the other fields drive the painter. -/
structure Trails where
  fadeAlpha : ℝ
  width : ℝ
  alpha : ℝ
  passes : ℕ
  maxSegmentRatio : ℝ

/-- params.state of the source: the three accumulated angles and the
elapsed-time counter in milliseconds. -/
structure RotState where
  thetaGlobal : ℝ
  thetaTop : ℝ
  thetaBottom : ℝ
  timerMs : ℝ

/-- The snapshot returned by getGeometry. -/
structure Geometry where
  center : Vec2
  topAxis : Vec2
  bottomAxis : Vec2
  topL : Vec2
  topR : Vec2
  botL : Vec2
  botR : Vec2

/-- degToRad from the source: deg * Math.PI / 180. -/
noncomputable def degToRad (deg : ℝ) : ℝ := deg * Real.pi / 180

/-- getGeometry of the source, with the viewport size, geometry config and
rotation state passed explicitly instead of read from module globals. -/
noncomputable def getGeometry (w h : ℝ) (g : GeometryCfg) (s : RotState) : Geometry :=
  let minDim := min w h
  let center : Vec2 := ⟨w / 2, h / 2⟩
  let axisOffset := g.axisOffsetRatio * minDim
  let armLen := g.armLenRatio * minDim
  let topAxis := add center (rotate ⟨0, -axisOffset⟩ s.thetaGlobal)
  let bottomAxis := add center (rotate ⟨0, axisOffset⟩ s.thetaGlobal)
  let topArmAngle := s.thetaGlobal + s.thetaTop + degToRad g.topPhaseOffset
  let bottomArmAngle := s.thetaGlobal + s.thetaBottom + degToRad g.bottomPhaseOffset
  let armVecR := fun angle => rotate ⟨armLen, 0⟩ angle
  let armVecL := fun angle => rotate ⟨-armLen, 0⟩ angle
  ⟨center, topAxis, bottomAxis,
   add topAxis (armVecL topArmAngle),
   add topAxis (armVecR topArmAngle),
   add bottomAxis (armVecL bottomArmAngle),
   add bottomAxis (armVecR bottomArmAngle)⟩

/-- The nextPositions record built in step and syncPointsToGeometry. -/
def nextPositions (geom : Geometry) : PointId → Vec2
  | .topL => geom.topL
  | .topR => geom.topR
  | .botL => geom.botL
  | .botR => geom.botR

/-- Body of the per-point loop in step: absent current initializes both
fields; a jump beyond maxSegment resets both to the new position;
otherwise the old current becomes previous and current advances. -/
noncomputable def updatePoint (maxSegment : ℝ) (p : TracedPoint) (next : Vec2) :
    TracedPoint :=
  match p.now with
  | none => { p with now := some next, prev := some next }
  | some cur =>
    if dist cur next > maxSegment then
      { p with now := some next, prev := some next }
    else
      { p with prev := some cur, now := some next }

/-- step of the source (drawing calls dropped): clamp and scale the raw
delta, accumulate the three angles and the timer, then run the continuity
update for every traced point against the new geometry. -/
noncomputable def step (w h : ℝ) (m : Motion) (g : GeometryCfg) (tr : Trails)
    (st : RotState) (points : List TracedPoint) (dt : ℝ) :
    RotState × List TracedPoint :=
  let dts := clamp dt 0 m.dtClampMax * m.timeScale
  let st2 : RotState :=
    ⟨st.thetaGlobal + m.omegaGlobal * dts,
     st.thetaTop + m.omegaTop * dts,
     st.thetaBottom + m.omegaBottom * dts,
     st.timerMs + dts * 1000⟩
  let geom := getGeometry w h g st2
  let maxSegment := tr.maxSegmentRatio * min w h
  (st2, points.map fun p => updatePoint maxSegment p (nextPositions geom p.id))

/-- Body of the loop in clearTrails: both fields become absent. -/
def clearPoint (p : TracedPoint) : TracedPoint :=
  { p with prev := none, now := none }

/-- clearTrails of the source (the canvas blanking is a paint effect and is
not part of the state model). -/
def clearTrails (points : List TracedPoint) : List TracedPoint :=
  points.map clearPoint

/-- Body of the loop in syncPointsToGeometry: both fields are snapped to
the point's freshly computed position. -/
def syncPoint (geom : Geometry) (p : TracedPoint) : TracedPoint :=
  let next := nextPositions geom p.id
  { p with now := some next, prev := some next }

/-- syncPointsToGeometry of the source. -/
def syncPointsToGeometry (geom : Geometry) (points : List TracedPoint) :
    List TracedPoint :=
  points.map (syncPoint geom)

/-- The mutable application state touched by the GUI actions: the running
flag, the rotation state and the four traced points. -/
structure App where
  running : Bool
  state : RotState
  points : List TracedPoint

/-- renderPausedState of the source: recompute geometry and resync every
traced point to it (the overlay redraw is a paint effect). -/
noncomputable def renderPausedState (w h : ℝ) (g : GeometryCfg) (a : App) : App :=
  let geom := getGeometry w h g a.state
  { a with points := syncPointsToGeometry geom a.points }

/-- params.actions.resetAngles of the source: zero the three angles, then,
when paused, re-render the static frame. -/
noncomputable def resetAngles (w h : ℝ) (g : GeometryCfg) (a : App) : App :=
  let a2 : App :=
    { a with state :=
        { a.state with thetaGlobal := 0, thetaTop := 0, thetaBottom := 0 } }
  if a2.running then a2 else renderPausedState w h g a2

/-- params.actions.clearTrails of the source (also reached from the R key
in onKeyDown): clear every traced point, zero the timer, then, when
paused, re-render the static frame. -/
noncomputable def clearTrailsAction (w h : ℝ) (g : GeometryCfg) (a : App) : App :=
  let a2 : App :=
    { a with points := clearTrails a.points,
             state := { a.state with timerMs := 0 } }
  if a2.running then a2 else renderPausedState w h g a2

/-!
Exact model of ECMAScript number semantics for the integrator's clamp
path: NaN, the two infinities, and finite values carried as rationals
(rounding plays no role in min/max comparisons). Math.max and Math.min
return NaN as soon as any argument is NaN.
-/

/-- An ECMAScript number: NaN, an infinity, or a finite value. -/
inductive JsNum where
  | nan
  | posInf
  | negInf
  | fin (q : ℚ)
  deriving DecidableEq

/-- Math.max on two arguments: NaN absorbs, otherwise the larger value
with negInf below every finite value and posInf above. -/
def jsMax : JsNum → JsNum → JsNum
  | .nan, _ => .nan
  | _, .nan => .nan
  | .posInf, _ => .posInf
  | _, .posInf => .posInf
  | .negInf, b => b
  | a, .negInf => a
  | .fin a, .fin b => .fin (max a b)

/-- Math.min on two arguments: NaN absorbs, otherwise the smaller value. -/
def jsMin : JsNum → JsNum → JsNum
  | .nan, _ => .nan
  | _, .nan => .nan
  | .negInf, _ => .negInf
  | _, .negInf => .negInf
  | .posInf, b => b
  | a, .posInf => a
  | .fin a, .fin b => .fin (min a b)

/-- Multiplication with IEEE special cases: NaN absorbs, infinity times
zero is NaN, otherwise signs combine. -/
def jsMul : JsNum → JsNum → JsNum
  | .nan, _ => .nan
  | _, .nan => .nan
  | .posInf, .posInf => .posInf
  | .posInf, .negInf => .negInf
  | .negInf, .posInf => .negInf
  | .negInf, .negInf => .posInf
  | .posInf, .fin b => if b = 0 then .nan else if 0 < b then .posInf else .negInf
  | .fin a, .posInf => if a = 0 then .nan else if 0 < a then .posInf else .negInf
  | .negInf, .fin b => if b = 0 then .nan else if 0 < b then .negInf else .posInf
  | .fin a, .negInf => if a = 0 then .nan else if 0 < a then .negInf else .posInf
  | .fin a, .fin b => .fin (a * b)

/-- Addition with IEEE special cases: NaN absorbs, opposite infinities
give NaN, an infinity dominates a finite value. -/
def jsAdd : JsNum → JsNum → JsNum
  | .nan, _ => .nan
  | _, .nan => .nan
  | .posInf, .negInf => .nan
  | .negInf, .posInf => .nan
  | .posInf, _ => .posInf
  | _, .posInf => .posInf
  | .negInf, _ => .negInf
  | _, .negInf => .negInf
  | .fin a, .fin b => .fin (a + b)

/-- clamp of the source over ECMAScript numbers:
Math.min(Math.max(v, min), max). -/
def jsClamp (v mi ma : JsNum) : JsNum := jsMin (jsMax v mi) ma

/-- params.state over ECMAScript numbers. -/
structure RotStateJs where
  thetaGlobal : JsNum
  thetaTop : JsNum
  thetaBottom : JsNum
  timerMs : JsNum
  deriving DecidableEq

/-- The integrator lines of step over ECMAScript numbers: the effective
step is clamp(dt, 0, dtClampMax) * timeScale and each angle and the timer
accumulate independently. -/
def stepJs (dt dtClampMax timeScale omegaG omegaT omegaB : JsNum)
    (st : RotStateJs) : RotStateJs :=
  let dts := jsMul (jsClamp dt (.fin 0) dtClampMax) timeScale
  ⟨jsAdd st.thetaGlobal (jsMul omegaG dts),
   jsAdd st.thetaTop (jsMul omegaT dts),
   jsAdd st.thetaBottom (jsMul omegaB dts),
   jsAdd st.timerMs (jsMul dts (.fin 1000))⟩

end Rotor

namespace Sim

/-- 2D vector of src/utils/math.ts. -/
structure Vec2 where
  x : ℝ
  y : ℝ

/-- TWO_PI = Math.PI * 2 from src/simulation/Vortex.ts. -/
noncomputable def TWO_PI : ℝ := Real.pi * 2

/-- EPSILON = 25 from src/simulation/constants.ts, the smoothing constant
added to r^2. -/
def EPSILON : ℝ := 25

/-- A point vortex: a fixed position and a circulation gamma
(class Vortex of src/simulation/Vortex.ts). -/
structure Vortex where
  position : Vec2
  gamma : ℝ

/-- Vortex.velocityAt: the smoothed point-vortex velocity field
gamma / (TWO_PI * (dx^2 + dy^2 + epsilon)) * (-dy, dx), written to the
out parameter in the source and returned here. -/
noncomputable def velocityAt (v : Vortex) (point : Vec2) (epsilon : ℝ) : Vec2 :=
  let dx := point.x - v.position.x
  let dy := point.y - v.position.y
  let r2 := dx * dx + dy * dy + epsilon
  let factor := v.gamma / (TWO_PI * r2)
  ⟨factor * (-dy), factor * dx⟩

end Sim

namespace Rotor

/-- Default geometry configuration of the source: axisOffsetRatio 0.22,
armLenRatio 0.18, both phase offsets zero. -/
noncomputable def geomCfg0 : GeometryCfg := ⟨0.22, 0.18, 0, 0⟩

/-- The zero rotation state (startup defaults of params.state). -/
def rotState0 : RotState := ⟨0, 0, 0, 0⟩

/-- A traced point whose current position is the origin. -/
def p0 : TracedPoint := ⟨.topL, some ⟨0, 0⟩, some ⟨0, 0⟩⟩

/-- A freshly created traced point: both fields absent. -/
def p1 : TracedPoint := ⟨.topR, none, none⟩

/-- The four traced points as created at startup. -/
def points0 : List TracedPoint :=
  [⟨.topL, none, none⟩, ⟨.topR, none, none⟩, ⟨.botL, none, none⟩, ⟨.botR, none, none⟩]

/-- A running application state with nonzero angles and timer. -/
def app0 : App := ⟨true, ⟨1, 2, 3, 7⟩, points0⟩

/-- The same application state, but paused (running = false). -/
def appPaused : App := ⟨false, ⟨1, 2, 3, 7⟩, points0⟩

/-- The integrator state with all ECMAScript-number fields zero. -/
def rotStateJs0 : RotStateJs := ⟨.fin 0, .fin 0, .fin 0, .fin 0⟩

/-- The default motion parameters of the source: timeScale 1,
omegaGlobal 0.45, omegaTop 2, dtClampMax 0.05, except that omegaBottom
(source default -2) is set to 0 here to exercise the invariance branch. -/
noncomputable def motion0 : Motion := ⟨1, 0.45, 2, 0, 0.05⟩

/-- The default trail parameters of the source: fadeAlpha 0.01,
width 1.25, alpha 3, passes 5, maxSegmentRatio 0.05. -/
noncomputable def trails0 : Trails := ⟨0.01, 1.25, 3, 5, 0.05⟩

end Rotor

namespace Sim

/-- The center vortex: circulation 300000 from VORTEX_GAMMAS, placed at
the origin. -/
def vortex0 : Vortex := ⟨⟨0, 0⟩, 300000⟩

end Sim

namespace Rotor

/-- Claim C2, counterexample: at the spec's end-to-end scenario the solver
does not return topAxis = (500, 390); with minDimension = 1000 the axis
offset is 0.22 * 1000 = 220, so topAxis.y = 500 - 220 = 280. -/
theorem c2_counterexample :
    ¬ (getGeometry 1000 1000 geomCfg0 rotState0).topAxis = (⟨500, 390⟩ : Vec2) := by
  simp only [getGeometry, geomCfg0, rotState0, add, rotate, degToRad,
    Real.cos_zero, Real.sin_zero, Vec2.mk.injEq, min_self, not_and]
  norm_num

/-- Claim C2, amended: with the same inputs the solver returns
center = (500, 500), topAxis = (500, 280), bottomAxis = (500, 720),
topRight = (680, 280) and topLeft = (320, 280), since axisOffset = 220 and
armLength = 180 and zero rotation leaves the arm horizontal. -/
theorem c2_geometry_scenario :
    (getGeometry 1000 1000 geomCfg0 rotState0).center = (⟨500, 500⟩ : Vec2) ∧
    (getGeometry 1000 1000 geomCfg0 rotState0).topAxis = (⟨500, 280⟩ : Vec2) ∧
    (getGeometry 1000 1000 geomCfg0 rotState0).bottomAxis = (⟨500, 720⟩ : Vec2) ∧
    (getGeometry 1000 1000 geomCfg0 rotState0).topR = (⟨680, 280⟩ : Vec2) ∧
    (getGeometry 1000 1000 geomCfg0 rotState0).topL = (⟨320, 280⟩ : Vec2) := by
  simp only [getGeometry, geomCfg0, rotState0, add, rotate, degToRad,
    zero_mul, zero_div, add_zero, zero_add,
    Real.cos_zero, Real.sin_zero, Vec2.mk.injEq, min_self]
  norm_num

/-- Rotating the vertical vector (0, b) and adding it to c lands at
distance |b| from c: sin^2 + cos^2 = 1. -/
lemma dist_add_rotate_y (c : Vec2) (b angle : ℝ) :
    dist c (add c (rotate ⟨0, b⟩ angle)) = |b| := by
  have hsq : (c.x - (add c (rotate ⟨0, b⟩ angle)).x) ^ 2
      + (c.y - (add c (rotate ⟨0, b⟩ angle)).y) ^ 2 = b ^ 2 := by
    simp only [add, rotate]
    nlinarith [Real.sin_sq_add_cos_sq angle]
  unfold dist
  rw [hsq, Real.sqrt_sq_eq_abs]

/-- Claim C7: for every global angle, nonnegative viewport size and
nonnegative axisOffsetRatio, the two axes sit at distance
axisOffset = axisOffsetRatio * min(w, h) from the center and sum to twice
the center: they are antipodal about it. -/
theorem c7_axis_antipodal (w h : ℝ) (g : GeometryCfg) (s : RotState)
    (hw : 0 ≤ w) (hh : 0 ≤ h) (hr : 0 ≤ g.axisOffsetRatio) :
    dist (getGeometry w h g s).center (getGeometry w h g s).topAxis
      = g.axisOffsetRatio * min w h ∧
    dist (getGeometry w h g s).center (getGeometry w h g s).bottomAxis
      = g.axisOffsetRatio * min w h ∧
    (getGeometry w h g s).topAxis.x + (getGeometry w h g s).bottomAxis.x
      = 2 * (getGeometry w h g s).center.x ∧
    (getGeometry w h g s).topAxis.y + (getGeometry w h g s).bottomAxis.y
      = 2 * (getGeometry w h g s).center.y := by
  have ha : 0 ≤ g.axisOffsetRatio * min w h := mul_nonneg hr (le_min hw hh)
  refine ⟨?_, ?_, ?_, ?_⟩
  · simp only [getGeometry]
    rw [dist_add_rotate_y, abs_neg, abs_of_nonneg ha]
  · simp only [getGeometry]
    rw [dist_add_rotate_y, abs_of_nonneg ha]
  · simp only [getGeometry, add, rotate]
    ring
  · simp only [getGeometry, add, rotate]
    ring

/-- Claim C7, witness at a concrete 1000 by 800 viewport with the default
configuration and the zero state. -/
theorem c7_witness :
    dist (getGeometry 1000 800 geomCfg0 rotState0).center
        (getGeometry 1000 800 geomCfg0 rotState0).topAxis
      = geomCfg0.axisOffsetRatio * min 1000 800 ∧
    dist (getGeometry 1000 800 geomCfg0 rotState0).center
        (getGeometry 1000 800 geomCfg0 rotState0).bottomAxis
      = geomCfg0.axisOffsetRatio * min 1000 800 ∧
    (getGeometry 1000 800 geomCfg0 rotState0).topAxis.x
        + (getGeometry 1000 800 geomCfg0 rotState0).bottomAxis.x
      = 2 * (getGeometry 1000 800 geomCfg0 rotState0).center.x ∧
    (getGeometry 1000 800 geomCfg0 rotState0).topAxis.y
        + (getGeometry 1000 800 geomCfg0 rotState0).bottomAxis.y
      = 2 * (getGeometry 1000 800 geomCfg0 rotState0).center.y :=
  c7_axis_antipodal 1000 800 geomCfg0 rotState0 (by norm_num) (by norm_num)
    (by norm_num [geomCfg0])

/-- Claim C8: with a positive raw delta, a positive clamp ceiling and a
positive time scale, one integrator step strictly increases any angle
whose angular velocity is positive and leaves unchanged any angle whose
angular velocity is zero. -/
theorem c8_angle_accumulation (w h dt : ℝ) (m : Motion) (g : GeometryCfg)
    (tr : Trails) (st : RotState) (points : List TracedPoint)
    (hdt : 0 < dt) (hc : 0 < m.dtClampMax) (hts : 0 < m.timeScale) :
    (0 < m.omegaGlobal →
      st.thetaGlobal < (step w h m g tr st points dt).1.thetaGlobal) ∧
    (m.omegaGlobal = 0 →
      (step w h m g tr st points dt).1.thetaGlobal = st.thetaGlobal) ∧
    (0 < m.omegaTop →
      st.thetaTop < (step w h m g tr st points dt).1.thetaTop) ∧
    (m.omegaTop = 0 →
      (step w h m g tr st points dt).1.thetaTop = st.thetaTop) ∧
    (0 < m.omegaBottom →
      st.thetaBottom < (step w h m g tr st points dt).1.thetaBottom) ∧
    (m.omegaBottom = 0 →
      (step w h m g tr st points dt).1.thetaBottom = st.thetaBottom) := by
  have hdts : 0 < clamp dt 0 m.dtClampMax * m.timeScale := by
    have h1 : clamp dt 0 m.dtClampMax = min dt m.dtClampMax := by
      unfold clamp
      rw [max_eq_left hdt.le]
    rw [h1]
    exact mul_pos (lt_min hdt hc) hts
  simp only [step]
  refine ⟨fun ho => ?_, fun ho => ?_, fun ho => ?_, fun ho => ?_,
    fun ho => ?_, fun ho => ?_⟩
  · exact lt_add_of_pos_right _ (mul_pos ho hdts)
  · rw [ho, zero_mul, add_zero]
  · exact lt_add_of_pos_right _ (mul_pos ho hdts)
  · rw [ho, zero_mul, add_zero]
  · exact lt_add_of_pos_right _ (mul_pos ho hdts)
  · rw [ho, zero_mul, add_zero]

/-- Claim C8, witness: at dt = 1 with motion0 the hypotheses hold and the
global and top angles strictly increase while the bottom angle is
unchanged. -/
theorem c8_witness :
    (0 < motion0.omegaGlobal →
      rotState0.thetaGlobal
        < (step 1000 800 motion0 geomCfg0 trails0 rotState0 points0 1).1.thetaGlobal) ∧
    (motion0.omegaGlobal = 0 →
      (step 1000 800 motion0 geomCfg0 trails0 rotState0 points0 1).1.thetaGlobal
        = rotState0.thetaGlobal) ∧
    (0 < motion0.omegaTop →
      rotState0.thetaTop
        < (step 1000 800 motion0 geomCfg0 trails0 rotState0 points0 1).1.thetaTop) ∧
    (motion0.omegaTop = 0 →
      (step 1000 800 motion0 geomCfg0 trails0 rotState0 points0 1).1.thetaTop
        = rotState0.thetaTop) ∧
    (0 < motion0.omegaBottom →
      rotState0.thetaBottom
        < (step 1000 800 motion0 geomCfg0 trails0 rotState0 points0 1).1.thetaBottom) ∧
    (motion0.omegaBottom = 0 →
      (step 1000 800 motion0 geomCfg0 trails0 rotState0 points0 1).1.thetaBottom
        = rotState0.thetaBottom) :=
  c8_angle_accumulation 1000 800 1 motion0 geomCfg0 trails0 rotState0 points0
    (by norm_num) (by norm_num [motion0]) (by norm_num [motion0])

/-- Claim C3: when the current position is present, a continuity update
with a jump beyond the threshold collapses previous and current to the
new position, and one within the threshold shifts current into previous
and stores the new position as current. -/
theorem c3_jump_suppression (maxSegment : ℝ) (p : TracedPoint)
    (cur next : Vec2) (hp : p.now = some cur) :
    (dist cur next > maxSegment →
      updatePoint maxSegment p next
        = { p with prev := some next, now := some next }) ∧
    (dist cur next ≤ maxSegment →
      updatePoint maxSegment p next
        = { p with prev := some cur, now := some next }) := by
  constructor
  · intro hgt
    simp only [updatePoint, hp, if_pos hgt]
  · intro hle
    simp only [updatePoint, hp, if_neg (not_lt.mpr hle)]

/-- Claim C3, witness: from current = (0, 0) with threshold 5, updating to
(1000, 1000) suppresses the segment (both fields become (1000, 1000)),
while updating to (1, 1) keeps it (previous (0, 0), current (1, 1)). -/
theorem c3_witness :
    updatePoint 5 p0 ⟨1000, 1000⟩
      = (⟨PointId.topL, some ⟨1000, 1000⟩, some ⟨1000, 1000⟩⟩ : TracedPoint) ∧
    updatePoint 5 p0 ⟨1, 1⟩
      = (⟨PointId.topL, some ⟨0, 0⟩, some ⟨1, 1⟩⟩ : TracedPoint) := by
  have hgt : dist ⟨0, 0⟩ (⟨1000, 1000⟩ : Vec2) > 5 := by
    have hs : ((Vec2.mk 0 0).x - (Vec2.mk 1000 1000).x) ^ 2
        + ((Vec2.mk 0 0).y - (Vec2.mk 1000 1000).y) ^ 2 = 2000000 := by norm_num
    unfold dist
    rw [hs]
    exact (Real.lt_sqrt (by norm_num)).mpr (by norm_num)
  have hle : dist ⟨0, 0⟩ (⟨1, 1⟩ : Vec2) ≤ 5 := by
    have hs : ((Vec2.mk 0 0).x - (Vec2.mk 1 1).x) ^ 2
        + ((Vec2.mk 0 0).y - (Vec2.mk 1 1).y) ^ 2 = 2 := by norm_num
    unfold dist
    rw [hs]
    have h25 : Real.sqrt 2 ≤ Real.sqrt 25 := Real.sqrt_le_sqrt (by norm_num)
    have h5 : Real.sqrt 25 = 5 := by
      rw [show (25 : ℝ) = 5 ^ 2 by norm_num, Real.sqrt_sq (by norm_num)]
    rw [h5] at h25
    exact h25
  constructor
  · have h := (c3_jump_suppression 5 p0 ⟨0, 0⟩ ⟨1000, 1000⟩ rfl).1 hgt
    simpa [p0] using h
  · have h := (c3_jump_suppression 5 p0 ⟨0, 0⟩ ⟨1, 1⟩ rfl).2 hle
    simpa [p0] using h

/-- Claim C5: after a continuity update, a clear-trails reset and a resync
to geometry, a traced point's previous field is absent exactly when its
current field is (the two are set or cleared together). -/
theorem c5_prev_now_together (maxSegment : ℝ) (p : TracedPoint) (next : Vec2)
    (geom : Geometry) :
    ((updatePoint maxSegment p next).prev = none ↔
      (updatePoint maxSegment p next).now = none) ∧
    ((clearPoint p).prev = none ↔ (clearPoint p).now = none) ∧
    ((syncPoint geom p).prev = none ↔ (syncPoint geom p).now = none) := by
  refine ⟨?_, by simp [clearPoint], by simp [syncPoint]⟩
  rcases hp : p.now with _ | cur
  · simp [updatePoint, hp]
  · simp only [updatePoint, hp]
    split <;> simp

/-- Claim C6: when the current position is absent, one continuity update
sets both previous and current to the new position. -/
theorem c6_first_update (maxSegment : ℝ) (p : TracedPoint) (next : Vec2)
    (hp : p.now = none) :
    (updatePoint maxSegment p next).prev = some next ∧
    (updatePoint maxSegment p next).now = some next := by
  simp [updatePoint, hp]

/-- Claim C6, witness: a fresh point updated to (3, 4) with threshold 5
carries (3, 4) in both fields. -/
theorem c6_witness :
    (updatePoint 5 p1 ⟨3, 4⟩).prev = some (⟨3, 4⟩ : Vec2) ∧
    (updatePoint 5 p1 ⟨3, 4⟩).now = some (⟨3, 4⟩ : Vec2) :=
  c6_first_update 5 p1 ⟨3, 4⟩ rfl

/-- Claim C4, counterexample: the reset-angles action does not zero the
whole rotation state; started running with timerMs = 7, the timer is
still 7 afterwards (only clearTrails resets it). -/
theorem c4_counterexample :
    ¬ (resetAngles 1000 1000 geomCfg0 app0).state.timerMs = 0 := by
  norm_num [resetAngles, app0]

/-- Claim C4, amended: while running, the reset-angles action zeroes the
three angles and leaves the timer and the traced points (hence the
accumulated trails) unchanged. -/
theorem c4_reset_angles (w h : ℝ) (g : GeometryCfg) (a : App)
    (hr : a.running = true) :
    (resetAngles w h g a).state.thetaGlobal = 0 ∧
    (resetAngles w h g a).state.thetaTop = 0 ∧
    (resetAngles w h g a).state.thetaBottom = 0 ∧
    (resetAngles w h g a).state.timerMs = a.state.timerMs ∧
    (resetAngles w h g a).points = a.points := by
  simp [resetAngles, hr]

/-- Claim C4, witness: the amended statement at the concrete running
state app0. -/
theorem c4_witness :
    (resetAngles 1000 1000 geomCfg0 app0).state.thetaGlobal = 0 ∧
    (resetAngles 1000 1000 geomCfg0 app0).state.thetaTop = 0 ∧
    (resetAngles 1000 1000 geomCfg0 app0).state.thetaBottom = 0 ∧
    (resetAngles 1000 1000 geomCfg0 app0).state.timerMs = app0.state.timerMs ∧
    (resetAngles 1000 1000 geomCfg0 app0).points = app0.points :=
  c4_reset_angles 1000 1000 geomCfg0 app0 rfl

/-- Claim C10, counterexample: invoked while paused, the clear-trails
action does not leave the traced points absent; after clearing them it
calls renderPausedState, which resyncs all four points to present
positions at the current geometry. -/
theorem c10_counterexample :
    ¬ ∀ q ∈ (clearTrailsAction 1000 1000 geomCfg0 appPaused).points,
        q.prev = none ∧ q.now = none := by
  simp [clearTrailsAction, appPaused, renderPausedState, syncPointsToGeometry,
    clearTrails, clearPoint, syncPoint, points0]

/-- Claim C10, amended: while running, the clear-trails action (also
bound to the R key) zeroes the elapsed-time counter, leaves the three
rotation angles unchanged and clears every traced point to absent (when
paused the action instead resyncs the cleared points to the current
geometry). -/
theorem c10_clear_trails_action (w h : ℝ) (g : GeometryCfg) (a : App)
    (hr : a.running = true) :
    (clearTrailsAction w h g a).state.timerMs = 0 ∧
    (clearTrailsAction w h g a).state.thetaGlobal = a.state.thetaGlobal ∧
    (clearTrailsAction w h g a).state.thetaTop = a.state.thetaTop ∧
    (clearTrailsAction w h g a).state.thetaBottom = a.state.thetaBottom ∧
    ∀ q ∈ (clearTrailsAction w h g a).points, q.prev = none ∧ q.now = none := by
  refine ⟨?_, ?_, ?_, ?_, ?_⟩ <;>
    simp [clearTrailsAction, hr, clearTrails, clearPoint]

/-- Claim C10, witness: the statement at the concrete running state app0,
whose timer is 7 and whose angles are 1, 2, 3. -/
theorem c10_witness :
    (clearTrailsAction 1000 1000 geomCfg0 app0).state.timerMs = 0 ∧
    (clearTrailsAction 1000 1000 geomCfg0 app0).state.thetaGlobal
      = app0.state.thetaGlobal ∧
    (clearTrailsAction 1000 1000 geomCfg0 app0).state.thetaTop
      = app0.state.thetaTop ∧
    (clearTrailsAction 1000 1000 geomCfg0 app0).state.thetaBottom
      = app0.state.thetaBottom ∧
    ∀ q ∈ (clearTrailsAction 1000 1000 geomCfg0 app0).points,
      q.prev = none ∧ q.now = none :=
  c10_clear_trails_action 1000 1000 geomCfg0 app0 rfl

/-- Claim C1, counterexample: a NaN raw delta passes through
clamp = Math.min(Math.max(dt, 0), dtClampMax) unchanged, because
Math.max and Math.min return NaN on a NaN argument, and the integrator
step then writes NaN into the accumulated global angle. -/
theorem c1_counterexample :
    jsClamp JsNum.nan (JsNum.fin 0) (JsNum.fin (1 / 20)) = JsNum.nan ∧
    (stepJs JsNum.nan (JsNum.fin (1 / 20)) (JsNum.fin 1) (JsNum.fin (9 / 20))
        (JsNum.fin 2) (JsNum.fin (-2)) rotStateJs0).thetaGlobal
      = JsNum.nan := by
  constructor <;> rfl

/-- Claim C1, amended: for every non-NaN raw delta (negative, zero,
arbitrarily large or infinite) and nonnegative finite clamp ceiling, the
clamped delta is a finite value in [0, ceiling] and every field the step
accumulates is driven by exactly that clamped value times the time
scale. -/
theorem c1_clamp_effective_step (d : JsNum) (c ts : ℚ)
    (hd : d ≠ JsNum.nan) (hc : 0 ≤ c) :
    ∃ x : ℚ, jsClamp d (JsNum.fin 0) (JsNum.fin c) = JsNum.fin x ∧
      0 ≤ x ∧ x ≤ c ∧
      ∀ (omegaG omegaT omegaB : JsNum) (st : RotStateJs),
        stepJs d (JsNum.fin c) (JsNum.fin ts) omegaG omegaT omegaB st =
          ⟨jsAdd st.thetaGlobal (jsMul omegaG (jsMul (JsNum.fin x) (JsNum.fin ts))),
           jsAdd st.thetaTop (jsMul omegaT (jsMul (JsNum.fin x) (JsNum.fin ts))),
           jsAdd st.thetaBottom (jsMul omegaB (jsMul (JsNum.fin x) (JsNum.fin ts))),
           jsAdd st.timerMs
             (jsMul (jsMul (JsNum.fin x) (JsNum.fin ts)) (JsNum.fin 1000))⟩ := by
  cases d with
  | nan => exact absurd rfl hd
  | posInf =>
    refine ⟨c, rfl, hc, le_refl c, ?_⟩
    intro omegaG omegaT omegaB st
    simp only [stepJs, jsClamp, jsMax, jsMin]
  | negInf =>
    have hcl : jsClamp JsNum.negInf (JsNum.fin 0) (JsNum.fin c)
        = JsNum.fin 0 := by
      simp only [jsClamp, jsMax, jsMin, JsNum.fin.injEq]
      exact min_eq_left hc
    refine ⟨0, hcl, le_refl 0, hc, ?_⟩
    intro omegaG omegaT omegaB st
    simp only [stepJs, hcl]
  | fin q =>
    refine ⟨min (max q 0) c, rfl, le_min (le_max_right q 0) hc,
      min_le_right _ _, ?_⟩
    intro omegaG omegaT omegaB st
    simp only [stepJs, jsClamp, jsMax, jsMin]

/-- Claim C1, witness: a huge raw delta of 10000 seconds against the
default ceiling 1/20 clamps to the ceiling and drives every accumulated
field through it. -/
theorem c1_witness :
    ∃ x : ℚ,
      jsClamp (JsNum.fin 10000) (JsNum.fin 0) (JsNum.fin (1 / 20))
        = JsNum.fin x ∧
      0 ≤ x ∧ x ≤ 1 / 20 ∧
      ∀ (omegaG omegaT omegaB : JsNum) (st : RotStateJs),
        stepJs (JsNum.fin 10000) (JsNum.fin (1 / 20)) (JsNum.fin 1)
            omegaG omegaT omegaB st =
          ⟨jsAdd st.thetaGlobal (jsMul omegaG (jsMul (JsNum.fin x) (JsNum.fin 1))),
           jsAdd st.thetaTop (jsMul omegaT (jsMul (JsNum.fin x) (JsNum.fin 1))),
           jsAdd st.thetaBottom (jsMul omegaB (jsMul (JsNum.fin x) (JsNum.fin 1))),
           jsAdd st.timerMs
             (jsMul (jsMul (JsNum.fin x) (JsNum.fin 1)) (JsNum.fin 1000))⟩ :=
  c1_clamp_effective_step (JsNum.fin 10000) (1 / 20) 1
    (fun hcon => JsNum.noConfusion hcon) (by norm_num)

end Rotor

namespace Sim

/-- Claim C9: for positive epsilon the smoothed denominator
TWO_PI * (dx * dx + dy * dy + epsilon) is strictly positive, and the
components velocityAt returns satisfy the defining equations of the
field gamma / (TWO_PI * r2) * (-dy, dx) with that nonzero denominator,
so the division never divides by zero, including at the vortex core. -/
theorem c9_velocity_total (v : Vortex) (point : Vec2) (epsilon : ℝ)
    (he : 0 < epsilon) :
    0 < TWO_PI * ((point.x - v.position.x) * (point.x - v.position.x)
        + (point.y - v.position.y) * (point.y - v.position.y) + epsilon) ∧
    (velocityAt v point epsilon).x
        * (TWO_PI * ((point.x - v.position.x) * (point.x - v.position.x)
          + (point.y - v.position.y) * (point.y - v.position.y) + epsilon))
      = v.gamma * (-(point.y - v.position.y)) ∧
    (velocityAt v point epsilon).y
        * (TWO_PI * ((point.x - v.position.x) * (point.x - v.position.x)
          + (point.y - v.position.y) * (point.y - v.position.y) + epsilon))
      = v.gamma * (point.x - v.position.x) := by
  have htp : 0 < TWO_PI := by
    unfold TWO_PI
    positivity
  have hr2 : 0 < (point.x - v.position.x) * (point.x - v.position.x)
      + (point.y - v.position.y) * (point.y - v.position.y) + epsilon := by
    nlinarith [mul_self_nonneg (point.x - v.position.x),
      mul_self_nonneg (point.y - v.position.y)]
  have hD := mul_pos htp hr2
  have hne := ne_of_gt hD
  refine ⟨hD, ?_, ?_⟩ <;>
  · simp only [velocityAt]
    field_simp

/-- Claim C9, witness: the vortex at the origin with circulation 300000,
evaluated at its own position with the program's EPSILON = 25. -/
theorem c9_witness :
    0 < TWO_PI * (((⟨0, 0⟩ : Vec2).x - vortex0.position.x)
          * ((⟨0, 0⟩ : Vec2).x - vortex0.position.x)
        + (((⟨0, 0⟩ : Vec2).y - vortex0.position.y)
          * ((⟨0, 0⟩ : Vec2).y - vortex0.position.y)) + EPSILON) ∧
    (velocityAt vortex0 ⟨0, 0⟩ EPSILON).x
        * (TWO_PI * (((⟨0, 0⟩ : Vec2).x - vortex0.position.x)
            * ((⟨0, 0⟩ : Vec2).x - vortex0.position.x)
          + (((⟨0, 0⟩ : Vec2).y - vortex0.position.y)
            * ((⟨0, 0⟩ : Vec2).y - vortex0.position.y)) + EPSILON))
      = vortex0.gamma * (-(((⟨0, 0⟩ : Vec2).y - vortex0.position.y))) ∧
    (velocityAt vortex0 ⟨0, 0⟩ EPSILON).y
        * (TWO_PI * (((⟨0, 0⟩ : Vec2).x - vortex0.position.x)
            * ((⟨0, 0⟩ : Vec2).x - vortex0.position.x)
          + (((⟨0, 0⟩ : Vec2).y - vortex0.position.y)
            * ((⟨0, 0⟩ : Vec2).y - vortex0.position.y)) + EPSILON))
      = vortex0.gamma * ((⟨0, 0⟩ : Vec2).x - vortex0.position.x) :=
  c9_velocity_total vortex0 ⟨0, 0⟩ EPSILON (by norm_num [EPSILON])

end Sim
